import Mathlib

/-!
Verification of the gateway supervisor / authenticating reverse proxy wrapper.

The repository ships one script under version control here
(`scripts/smoke.js`), embedded below as `smoke`.  The core server
(`src/server.js`: ConfigurationStore, TokenStore, GatewaySupervisor,
ReadinessProbe, AuthenticatingProxy, RequestRouter) is not present in the
source tree, so those components are modelled from the specification's
component contracts; each such definition is marked `Modelled from the
spec:`.
-/

namespace OpenclawWrapper

/-! ### Smoke script (`scripts/smoke.js`) -/

/-- Result of `spawnSync("openclaw", ["--version"], { encoding: "utf8" })`:
`status` is `none` when the child terminated without an exit code (e.g. by a
signal), otherwise the exit code. -/
structure SpawnResult where
  status : Option Int
  stdout : String
  stderr : String

/-- Observable behaviour of the smoke script: either it logs a line to stdout
and falls off the end of the script (no `process.exit` call), or it prints a
message to stderr and calls `process.exit code`. -/
inductive SmokeOutcome where
  | ok (line : String)
  | fail (errOut : String) (code : Int)
deriving DecidableEq, Repr

/-- Embedding of the top-level body of `scripts/smoke.js`:
`if (r.status !== 0) { console.error(r.stdout || r.stderr); process.exit(r.status ?? 1); }
console.log("openclaw ok:", r.stdout.trim());`
`r.stdout || r.stderr` is JavaScript falsy-choice: `stdout` when non-empty,
else `stderr`; `r.status ?? 1` is `Option.getD` on the status. -/
def smoke (r : SpawnResult) : SmokeOutcome :=
  if r.status ≠ some 0 then
    SmokeOutcome.fail (if r.stdout = "" then r.stderr else r.stdout) (r.status.getD 1)
  else
    SmokeOutcome.ok ("openclaw ok: " ++ r.stdout.trim)

/-! ### TokenStore -/

/-- Hexadecimal digit character, lowercase, as produced by a hex encoding of
random bytes. -/
def hexDigit (d : Fin 16) : Char :=
  if d.val < 10 then Char.ofNat (48 + d.val) else Char.ofNat (87 + d.val)

/-- Little-endian hex digits of `n`, padded/truncated to `len` digits. -/
def natToHex : Nat → Nat → List Char
  | 0, _ => []
  | len + 1, n => hexDigit ⟨n % 16, Nat.mod_lt n (by norm_num)⟩ :: natToHex len (n / 16)

/-- Modelled from the spec: TokenStore's token generator — "generate a
cryptographically random token of sufficient entropy (≥128 bits)".  The
generator consumes a 128-bit random value (`Fin (16 ^ 32)` = `Fin (2 ^ 128)`)
and renders it as 32 hex characters. -/
def generateToken (r : Fin (16 ^ 32)) : String :=
  String.mk (natToHex 32 r.val)

/-- Modelled from the spec: steps (2) and (3) of
`TokenStore.getOrCreateToken` — read the persisted token file under the state
directory; if present and non-empty use it, else generate a fresh token,
persist it and use it.  `fsTok` is the current content of the token file
(`none` = file absent), the second component of the result is the token file
content after the call. -/
def readOrGenerate (fsTok : Option String) (r : Fin (16 ^ 32)) :
    String × Option String :=
  match fsTok with
  | some s => if s = "" then (generateToken r, some (generateToken r)) else (s, some s)
  | none => (generateToken r, some (generateToken r))

/-- Modelled from the spec: `TokenStore.getOrCreateToken()` — "(1) if an
environment-supplied value is present and non-empty, use it, do not persist.
(2) else attempt to read a previously persisted value from a fixed path under
the state directory; if present and non-empty, use it. (3) else generate a
cryptographically random token ..., persist it to that path, and use it."
`env` is the environment override, `fsTok` the persisted token file content,
`r` the process's randomness; returns the token and the resulting file
content. -/
def getOrCreateToken (env fsTok : Option String) (r : Fin (16 ^ 32)) :
    String × Option String :=
  match env with
  | some e => if e = "" then readOrGenerate fsTok r else (e, fsTok)
  | none => readOrGenerate fsTok r

/-- Tokens returned by successive calls to `getOrCreateToken` with no
environment override, threading the persisted file content from call to call;
each call may use fresh randomness.  Successive entries of `rs` model both
repeated calls within one process and calls across restarts on the same
volume. -/
def tokenChain (fsTok : Option String) : List (Fin (16 ^ 32)) → List String
  | [] => []
  | r :: rs => (getOrCreateToken none fsTok r).1
      :: tokenChain (getOrCreateToken none fsTok r).2 rs

/-! ### ConfigurationStore and RequestRouter -/

/-- Outcome of the filesystem existence check for the configuration artifact;
`err` is a filesystem read error carrying its message. -/
inductive FsStat where
  | present
  | absent
  | err (msg : String)
deriving DecidableEq, Repr

/-- The derived configuration state. -/
inductive ConfigState where
  | Unconfigured
  | Configured
deriving DecidableEq, Repr

/-- Modelled from the spec: `ConfigurationStore.isConfigured()` — "checks for
existence of a canonical configuration artifact"; "a filesystem read error is
treated as Unconfigured (fail safe)". -/
def isConfigured : FsStat → ConfigState
  | FsStat.present => ConfigState.Configured
  | FsStat.absent => ConfigState.Unconfigured
  | FsStat.err _ => ConfigState.Unconfigured

/-- Where the router sends an inbound request. -/
inductive RouteDecision where
  | setup
  | deflect
  | proxied
deriving DecidableEq, Repr

/-- A request path is claimed by the setup surface when it is `/setup` or
below it. -/
def isSetupPath (path : String) : Bool :=
  List.isPrefixOf "/setup".data path.data

/-- Modelled from the spec: RequestRouter — "dispatches between the setup
surface and the proxy based on configuration state"; "if unconfigured, all
traffic is deflected to setup", otherwise non-setup traffic is handed to
AuthenticatingProxy. -/
def route (cfg : ConfigState) (path : String) : RouteDecision :=
  if isSetupPath path then RouteDecision.setup
  else
    match cfg with
    | ConfigState.Unconfigured => RouteDecision.deflect
    | ConfigState.Configured => RouteDecision.proxied

/-! ### AuthenticatingProxy -/

/-- An HTTP request as seen on the wire: a path and a header list. -/
structure Request where
  path : String
  headers : List (String × String)
deriving DecidableEq, Repr

/-- Overwrite/set a header: any client-presented value under `n` is dropped
and replaced by `v`. -/
def setHeader (hs : List (String × String)) (n v : String) :
    List (String × String) :=
  (n, v) :: hs.filter (fun p => p.1 != n)

/-- First value carried under header name `n`, as the backend reads it. -/
def getHeader (hs : List (String × String)) (n : String) : Option String :=
  (hs.find? (fun p => p.1 == n)).map (fun p => p.2)

/-- Modelled from the spec: the proxy's credential injection — "the proxy
unconditionally overwrites/sets the header with the authoritative TokenStore
value before forwarding". -/
def injectAuth (token : String) (req : Request) : Request :=
  { req with headers := setHeader req.headers "authorization" ("Bearer " ++ token) }

/-- Modelled from the spec: the plain-HTTP forwarding leg of
AuthenticatingProxy (the `proxyReq` interception hook), which rewrites the
credential header on the outbound request. -/
def onProxyReq (token : String) (req : Request) : Request :=
  { req with headers := setHeader req.headers "authorization" ("Bearer " ++ token) }

/-- Modelled from the spec: the WebSocket-upgrade forwarding leg of
AuthenticatingProxy (the `proxyReqWs` interception hook), which rewrites the
credential header on the outbound upgrade request. -/
def onProxyReqWs (token : String) (req : Request) : Request :=
  { req with headers := setHeader req.headers "authorization" ("Bearer " ++ token) }

/-! ### ReadinessProbe and GatewaySupervisor -/

/-- Modelled from the spec: one polling round of ReadinessProbe — "issue a
lightweight request to each candidate endpoint in a fixed priority order; the
first endpoint returning a successful status ... the probe returns success
immediately".  Returns the endpoints actually queried this round, and the
first success if any. -/
def probeRound (ok : String → Bool) : List String → List String × Option String
  | [] => ([], none)
  | e :: rest =>
    if ok e then ([e], some e)
    else
      let p := probeRound ok rest
      (e :: p.1, p.2)

/-- Modelled from the spec: the bounded polling loop of
`ReadinessProbe.waitReady` — one `probeRound` per `interval`, starting at
time `t`, for at most `fuel` rounds.  Returns every endpoint queried and, on
success, the time and endpoint of the first success. -/
def waitReadyAux (ok : Nat → String → Bool) (cands : List String)
    (interval : Nat) : Nat → Nat → List String × Option (Nat × String)
  | 0, _ => ([], none)
  | fuel + 1, t =>
    let p := probeRound (ok t) cands
    match p.2 with
    | some e => (p.1, some (t, e))
    | none =>
      let rest := waitReadyAux ok cands interval fuel (t + interval)
      (p.1 ++ rest.1, rest.2)

/-- Modelled from the spec: `ReadinessProbe.waitReady(candidateEndpoints,
timeout)` — poll at a fixed `interval` until one candidate succeeds or the
`timeout` elapses (`timeout / interval` rounds); `ok t e` tells whether
endpoint `e` responds successfully when queried at time `t`.  An empty second
component is the timeout failure. -/
def waitReady (ok : Nat → String → Bool) (cands : List String)
    (interval timeout : Nat) : List String × Option (Nat × String) :=
  waitReadyAux ok cands interval (timeout / interval) 0

/-- Errors of a gateway start attempt. -/
inductive StartError where
  | doubleStart
  | readinessTimeout
deriving DecidableEq, Repr

/-- Modelled from the spec: `GatewaySupervisor.start()` — "at most one
backend process instance is supervised per parent process at any time; a
second `start` call while one is already running is rejected as invalid",
without tearing down the running instance; otherwise the backend `h` is
spawned and the probe must succeed before the attempt counts as started, a
readiness timeout being fatal for the attempt.  `running` is the supervised
process (by pid) before the call; the first component is the supervised
process after the call. -/
def startGateway (running : Option Nat) (h : Nat) (ok : Nat → String → Bool)
    (cands : List String) (interval timeout : Nat) :
    Option Nat × Except StartError (Nat × String) :=
  match running with
  | some p => (some p, Except.error StartError.doubleStart)
  | none =>
    match (waitReady ok cands interval timeout).2 with
    | some (_, e) => (some h, Except.ok (h, e))
    | none => (none, Except.error StartError.readinessTimeout)

/-! ### Helper lemmas -/

theorem hexDigit_inj : ∀ a b : Fin 16, hexDigit a = hexDigit b → a = b := by
  decide

theorem natToHex_length : ∀ len n, (natToHex len n).length = len := by
  intro len
  induction len with
  | zero => intro n; rfl
  | succ k ih => intro n; simp [natToHex, ih]

theorem natToHex_inj : ∀ len n m, n < 16 ^ len → m < 16 ^ len →
    natToHex len n = natToHex len m → n = m := by
  intro len
  induction len with
  | zero =>
    intro n m hn hm _
    simp [pow_zero] at hn hm
    omega
  | succ k ih =>
    intro n m hn hm h
    simp only [natToHex, List.cons.injEq] at h
    have hd : n % 16 = m % 16 := congrArg Fin.val (hexDigit_inj _ _ h.1)
    have hdivn : n / 16 < 16 ^ k := by
      rw [Nat.div_lt_iff_lt_mul (by norm_num)]
      calc n < 16 ^ (k + 1) := hn
        _ = 16 ^ k * 16 := by ring
    have hdivm : m / 16 < 16 ^ k := by
      rw [Nat.div_lt_iff_lt_mul (by norm_num)]
      calc m < 16 ^ (k + 1) := hm
        _ = 16 ^ k * 16 := by ring
    have ht : n / 16 = m / 16 := ih _ _ hdivn hdivm h.2
    omega

theorem generateToken_inj : ∀ r s : Fin (16 ^ 32),
    generateToken r = generateToken s → r = s := by
  intro r s h
  have hdata : natToHex 32 r.val = natToHex 32 s.val := by
    have := congrArg String.data h
    simpa [generateToken] using this
  exact Fin.ext (natToHex_inj 32 r.val s.val r.isLt s.isLt hdata)

theorem generateToken_ne_empty : ∀ r : Fin (16 ^ 32), generateToken r ≠ "" := by
  intro r h
  have hdata : natToHex 32 r.val = [] := by
    have := congrArg String.data h
    simpa [generateToken] using this
  have := natToHex_length 32 r.val
  rw [hdata] at this
  simp at this

theorem getOrCreateToken_persists : ∀ (fsTok : Option String) (r : Fin (16 ^ 32)),
    (getOrCreateToken none fsTok r).2 = some (getOrCreateToken none fsTok r).1 ∧
    (getOrCreateToken none fsTok r).1 ≠ "" := by
  intro fsTok r
  match fsTok with
  | none => exact ⟨rfl, generateToken_ne_empty r⟩
  | some s =>
    by_cases hs : s = ""
    · subst hs
      simp [getOrCreateToken, readOrGenerate, generateToken_ne_empty r]
    · simp [getOrCreateToken, readOrGenerate, hs]

theorem getOrCreateToken_stable : ∀ (fsTok : Option String) (r r' : Fin (16 ^ 32)),
    getOrCreateToken none (getOrCreateToken none fsTok r).2 r' =
      getOrCreateToken none fsTok r := by
  intro fsTok r r'
  obtain ⟨h2, h1⟩ := getOrCreateToken_persists fsTok r
  rw [h2]
  have hstep : ∀ t : String, t ≠ "" →
      getOrCreateToken none (some t) r' = (t, some t) := by
    intro t ht
    simp [getOrCreateToken, readOrGenerate, ht]
  rw [hstep _ h1, ← h2]

theorem probeRound_all_false (ok : String → Bool) :
    ∀ l : List String, (∀ e, ok e = false) → probeRound ok l = (l, none) := by
  intro l hok
  induction l with
  | nil => rfl
  | cons e rest ih => simp [probeRound, hok e, ih]

theorem waitReadyAux_all_false (ok : Nat → String → Bool) (cands : List String)
    (interval : Nat) (hok : ∀ t e, ok t e = false) :
    ∀ fuel t, (waitReadyAux ok cands interval fuel t).2 = none := by
  intro fuel
  induction fuel with
  | zero => intro t; rfl
  | succ k ih =>
    intro t
    simp [waitReadyAux, probeRound_all_false (ok t) cands (hok t), ih]

/-! ### Claim theorems -/

/-- Claim C1: for every inbound request forwarded by AuthenticatingProxy (on
the plain-HTTP leg and on the WebSocket leg alike), the credential header as
received by the backend equals `Bearer` followed by the current TokenStore
value, whatever credential header the client sent: the client-presented
value is never forwarded verbatim. -/
theorem proxy_injects_current_token (token : String) (req : Request) :
    getHeader (onProxyReq token req).headers "authorization"
        = some ("Bearer " ++ token) ∧
    getHeader (onProxyReqWs token req).headers "authorization"
        = some ("Bearer " ++ token) := by
  constructor <;> rfl

/-- Claim C2: the credential-injection transformation applied on the
WebSocket-upgrade code path is identical to the one applied on the
plain-HTTP code path — for every request both paths produce the same
forwarded request, so no divergent path drops or alters the header. -/
theorem ws_injection_equals_http_injection (token : String) (req : Request) :
    onProxyReqWs token req = onProxyReq token req := rfl

/-- Claim C3: `TokenStore.getOrCreateToken()` resolves the token by
precedence — a present non-empty environment value is returned with nothing
persisted; else a present non-empty persisted value is returned; else a
fresh random token is persisted and returned, where the generator is
injective on its 128-bit random input (so the token carries at least 128
bits of entropy) and never produces the empty string. -/
theorem getOrCreateToken_precedence :
    (∀ (e : String) (fsTok : Option String) (r : Fin (16 ^ 32)), e ≠ "" →
      getOrCreateToken (some e) fsTok r = (e, fsTok)) ∧
    (∀ (env fsTok : Option String) (s : String) (r : Fin (16 ^ 32)),
      (env = none ∨ env = some "") → fsTok = some s → s ≠ "" →
      getOrCreateToken env fsTok r = (s, some s)) ∧
    (∀ (env fsTok : Option String) (r : Fin (16 ^ 32)),
      (env = none ∨ env = some "") → (fsTok = none ∨ fsTok = some "") →
      getOrCreateToken env fsTok r = (generateToken r, some (generateToken r))) ∧
    (∀ r s : Fin (16 ^ 32), generateToken r = generateToken s → r = s) ∧
    (∀ r : Fin (16 ^ 32), generateToken r ≠ "") := by
  refine ⟨?_, ?_, ?_, generateToken_inj, generateToken_ne_empty⟩
  · intro e fsTok r he
    simp [getOrCreateToken, he]
  · intro env fsTok s r henv hfs hs
    rcases henv with h | h <;> subst h <;> subst hfs <;>
      simp [getOrCreateToken, readOrGenerate, hs]
  · intro env fsTok r henv hfs
    rcases henv with h | h <;> subst h <;> rcases hfs with h2 | h2 <;> subst h2 <;>
      simp [getOrCreateToken, readOrGenerate]

/-- Claim C4: with no environment override, every call in a sequence of
`getOrCreateToken` calls over the same persisted volume — within one process
or across restarts, each call with its own fresh randomness — returns the
value of the first call: the whole chain is that single token repeated. -/
theorem tokenChain_constant : ∀ (rs : List (Fin (16 ^ 32)))
    (fsTok : Option String) (r : Fin (16 ^ 32)),
    tokenChain fsTok (r :: rs)
      = List.replicate (rs.length + 1) (getOrCreateToken none fsTok r).1 := by
  intro rs
  induction rs with
  | nil => intro fsTok r; rfl
  | cons r' rs' ih =>
    intro fsTok r
    have hstep := getOrCreateToken_stable fsTok r r'
    calc tokenChain fsTok (r :: r' :: rs')
        = (getOrCreateToken none fsTok r).1
            :: tokenChain (getOrCreateToken none fsTok r).2 (r' :: rs') := rfl
      _ = (getOrCreateToken none fsTok r).1
            :: List.replicate (rs'.length + 1)
              (getOrCreateToken none (getOrCreateToken none fsTok r).2 r').1 :=
          by rw [ih]
      _ = (getOrCreateToken none fsTok r).1
            :: List.replicate (rs'.length + 1) (getOrCreateToken none fsTok r).1 :=
          by rw [hstep]
      _ = List.replicate ((r' :: rs').length + 1) (getOrCreateToken none fsTok r).1 :=
          by simp [List.replicate]

/-- Claim C5: `ReadinessProbe.waitReady` polls candidates in priority order
and succeeds with the first endpoint that responds, issuing no further
requests afterwards: for candidates `[a, b, c]` where `a` fails and `b`
succeeds at the first round, the result is `b` at time 0, the queried log is
exactly `[a, b]`, and `c` is never queried. -/
theorem waitReady_first_success (ok : Nat → String → Bool) (a b c : String)
    (interval timeout : Nat) (ha : ok 0 a = false) (hb : ok 0 b = true)
    (hrounds : 0 < timeout / interval) :
    (waitReady ok [a, b, c] interval timeout).2 = some (0, b) ∧
    (waitReady ok [a, b, c] interval timeout).1 = [a, b] ∧
    (c ≠ a → c ≠ b → c ∉ (waitReady ok [a, b, c] interval timeout).1) := by
  obtain ⟨k, hk⟩ : ∃ k, timeout / interval = k + 1 :=
    ⟨timeout / interval - 1, by omega⟩
  have hround : probeRound (ok 0) [a, b, c] = ([a, b], some b) := by
    simp [probeRound, ha, hb]
  refine ⟨?_, ?_, ?_⟩ <;>
    simp [waitReady, hk, waitReadyAux, hround]
  intro hca hcb
  exact ⟨hca, hcb⟩

/-- Claim C6: if every candidate endpoint fails at every polling time,
`ReadinessProbe.waitReady` terminates with the timeout failure (never a
success), and the surrounding start attempt treats that as fatal: the
supervisor returns a `readinessTimeout` error and no backend counts as
started. -/
theorem waitReady_timeout_fatal (ok : Nat → String → Bool) (cands : List String)
    (interval timeout h : Nat) (hok : ∀ t e, ok t e = false) :
    (waitReady ok cands interval timeout).2 = none ∧
    startGateway none h ok cands interval timeout
      = (none, Except.error StartError.readinessTimeout) := by
  have hw : (waitReady ok cands interval timeout).2 = none :=
    waitReadyAux_all_false ok cands interval hok (timeout / interval) 0
  refine ⟨hw, ?_⟩
  simp [startGateway, hw]

/-- Claim C7: a `start()` call while a backend process is already running is
rejected with a double-start error and leaves the running instance
untouched: the supervised process after the call is the same as before. -/
theorem start_while_running_rejected (p h : Nat) (ok : Nat → String → Bool)
    (cands : List String) (interval timeout : Nat) :
    startGateway (some p) h ok cands interval timeout
      = (some p, Except.error StartError.doubleStart) := rfl

/-- Claim C8: whenever the filesystem existence check fails with a read
error, `ConfigurationStore.isConfigured()` reports `Unconfigured` — never
`Configured` (and, the model being a total function, never a propagated
exception). -/
theorem read_error_is_unconfigured (msg : String) :
    isConfigured (FsStat.err msg) = ConfigState.Unconfigured ∧
    isConfigured (FsStat.err msg) ≠ ConfigState.Configured := by
  exact ⟨rfl, by simp [isConfigured]⟩

/-- Claim C9: whenever ConfigurationStore reports `Unconfigured`, every
inbound request to a non-setup route is deflected to the setup surface, and
no request at all — setup or not — is proxied to the backend. -/
theorem unconfigured_traffic_deflected (st : FsStat) (path : String)
    (hst : isConfigured st = ConfigState.Unconfigured) :
    (isSetupPath path = false →
      route (isConfigured st) path = RouteDecision.deflect) ∧
    route (isConfigured st) path ≠ RouteDecision.proxied := by
  rw [hst]
  constructor
  · intro hsetup
    simp [route, hsetup]
  · by_cases hsetup : isSetupPath path <;> simp [route, hsetup]

/-- Claim C10: the smoke script prints `openclaw ok:` plus the trimmed
stdout and does not call `process.exit` when the spawn exits 0; on a
non-zero exit status it prints stdout (or stderr when stdout is empty) to
standard error and exits with that status; on a null status it exits with
code 1. -/
theorem smoke_spawn_result_handling (r : SpawnResult) :
    (r.status = some 0 →
      smoke r = SmokeOutcome.ok ("openclaw ok: " ++ r.stdout.trim)) ∧
    (∀ c : Int, r.status = some c → c ≠ 0 →
      smoke r = SmokeOutcome.fail
        (if r.stdout = "" then r.stderr else r.stdout) c) ∧
    (r.status = none →
      smoke r = SmokeOutcome.fail
        (if r.stdout = "" then r.stderr else r.stdout) 1) := by
  refine ⟨?_, ?_, ?_⟩
  · intro h0
    simp [smoke, h0]
  · intro c hc hne
    simp [smoke, hc, hne]
  · intro hn
    simp [smoke, hn]

/-! ### Witnesses -/

/-- Concrete instance of claim C3: an environment token wins and persists
nothing; a stored token wins over generation; with neither, the generated
token is persisted and returned; distinct randomness gives distinct
tokens. -/
theorem getOrCreateToken_precedence_witness :
    getOrCreateToken (some "envtok") none (⟨0, by norm_num⟩ : Fin (16 ^ 32))
        = ("envtok", none) ∧
    getOrCreateToken none (some "stored") (⟨0, by norm_num⟩ : Fin (16 ^ 32))
        = ("stored", some "stored") ∧
    getOrCreateToken none none (⟨0, by norm_num⟩ : Fin (16 ^ 32))
        = (generateToken (⟨0, by norm_num⟩ : Fin (16 ^ 32)),
           some (generateToken (⟨0, by norm_num⟩ : Fin (16 ^ 32)))) ∧
    ((⟨0, by norm_num⟩ : Fin (16 ^ 32)) = (⟨0, by norm_num⟩ : Fin (16 ^ 32))) ∧
    generateToken (⟨0, by norm_num⟩ : Fin (16 ^ 32)) ≠ "" := by
  refine ⟨?_, ?_, ?_, ?_, ?_⟩
  · exact getOrCreateToken_precedence.1 "envtok" none _ (by decide)
  · exact getOrCreateToken_precedence.2.1 none (some "stored") "stored" _
      (Or.inl rfl) rfl (by decide)
  · exact getOrCreateToken_precedence.2.2.1 none none _ (Or.inl rfl) (Or.inl rfl)
  · exact getOrCreateToken_precedence.2.2.2.1 _ _ rfl
  · exact getOrCreateToken_precedence.2.2.2.2 _

/-- Concrete instance of claim C5: with candidates `["A", "B", "C"]` where
`"A"` fails and `"B"` succeeds, probing at 500 ms within a 20000 ms budget
returns `"B"` at time 0 having queried exactly `["A", "B"]`, and `"C"` is
never queried. -/
theorem waitReady_first_success_witness :
    (waitReady (fun _ e => e == "B") ["A", "B", "C"] 500 20000).2
        = some (0, "B") ∧
    (waitReady (fun _ e => e == "B") ["A", "B", "C"] 500 20000).1 = ["A", "B"] ∧
    "C" ∉ (waitReady (fun _ e => e == "B") ["A", "B", "C"] 500 20000).1 := by
  have h := waitReady_first_success (fun _ e => e == "B") "A" "B" "C" 500 20000
    (by decide) (by decide) (by norm_num)
  exact ⟨h.1, h.2.1, h.2.2 (by decide) (by decide)⟩

/-- Concrete instance of claim C6: with every candidate failing at every
poll, a 20000 ms budget polled at 500 ms yields the timeout failure and the
start attempt fails with `readinessTimeout`, starting nothing. -/
theorem waitReady_timeout_fatal_witness :
    (waitReady (fun _ _ => false) ["/openclaw", "/", "/health"] 500 20000).2
        = none ∧
    startGateway none 1 (fun _ _ => false) ["/openclaw", "/", "/health"] 500 20000
      = (none, Except.error StartError.readinessTimeout) :=
  waitReady_timeout_fatal (fun _ _ => false) ["/openclaw", "/", "/health"]
    500 20000 1 (fun _ _ => rfl)

/-- Concrete instance of claim C9: with the configuration file absent, a
request to `/anything` is deflected and not proxied. -/
theorem unconfigured_traffic_deflected_witness :
    route (isConfigured FsStat.absent) "/anything" = RouteDecision.deflect ∧
    route (isConfigured FsStat.absent) "/anything" ≠ RouteDecision.proxied := by
  have h := unconfigured_traffic_deflected FsStat.absent "/anything" rfl
  exact ⟨h.1 (by decide), h.2⟩

/-- Concrete instances of claim C10: a zero exit logs the trimmed version
line; exit 3 with empty stdout prints stderr and exits 3; a null status
prints stdout and exits 1. -/
theorem smoke_spawn_result_handling_witness :
    smoke ⟨some 0, " 1.2.3 \n", ""⟩
        = SmokeOutcome.ok ("openclaw ok: " ++ (" 1.2.3 \n").trim) ∧
    smoke ⟨some 3, "", "boom"⟩
        = SmokeOutcome.fail (if ("" : String) = "" then "boom" else "") 3 ∧
    smoke ⟨none, "out", "err"⟩
        = SmokeOutcome.fail (if ("out" : String) = "" then "err" else "out") 1 := by
  refine ⟨?_, ?_, ?_⟩
  · exact (smoke_spawn_result_handling ⟨some 0, " 1.2.3 \n", ""⟩).1 rfl
  · exact (smoke_spawn_result_handling ⟨some 3, "", "boom"⟩).2.1 3 rfl (by decide)
  · exact (smoke_spawn_result_handling ⟨none, "out", "err"⟩).2.2 rfl

end OpenclawWrapper
